import Mathlib

/-!
Verification of the etl_manager database-abstraction subsystem.

The Python sources under `src/database/` are shallowly embedded below:
pure computations (type inference, identifier validation, SQL string
construction, classification of read-like queries, backoff schedules)
become Lean functions, and the stateful paths (generic CRUD operations
delegating to a backend client) are embedded as functions over an
explicit client interface that returns the trace of queries handed to
the client together with the Python-level outcome (`Except` models
raised exceptions).
-/

namespace EtlManager

/-- A Python scalar value as it occurs in the CRUD layer: the embedding
keeps exactly the distinctions the source inspects (`type(v)` /
`isinstance` dispatch and date formatting).  `vFloat` carries only the
literal's text because the sources never compute with floats, they only
dispatch on the type tag. -/
inductive PyVal where
  | vNone
  | vBool (b : Bool)
  | vInt (n : Int)
  | vFloat (lit : String)
  | vStr (s : String)
  | vDate (y m d : Nat)
  | vDatetime (y mo d h mi s : Nat)
  | vBytes (bs : List Nat)
  | vDict
  | vList
  deriving DecidableEq, Repr

/-- Constructor tag, used to model Python's `type(a) == type(b)` test in
`PostgresqlGenericCRUD._infer_column_types`. -/
def PyVal.tag : PyVal → Nat
  | .vNone => 0
  | .vBool _ => 1
  | .vInt _ => 2
  | .vFloat _ => 3
  | .vStr _ => 4
  | .vDate .. => 5
  | .vDatetime .. => 6
  | .vBytes _ => 7
  | .vDict => 8
  | .vList => 9

/-- A row fetched with `fetch_as_dict=True`: an ordered column-name/value
mapping. -/
abbrev Record := List (String × PyVal)

def pad2 (n : Nat) : String :=
  if n < 10 then "0" ++ toString n else toString n

def pad4 (n : Nat) : String :=
  if n < 10 then "000" ++ toString n
  else if n < 100 then "00" ++ toString n
  else if n < 1000 then "0" ++ toString n
  else toString n

/-- `date.strftime('%Y-%m-%d')`. -/
def fmt_date (y m d : Nat) : String :=
  pad4 y ++ "-" ++ pad2 m ++ "-" ++ pad2 d

/-- `datetime.strftime('%Y-%m-%d %H:%M:%S')`. -/
def fmt_datetime (y mo d h mi s : Nat) : String :=
  fmt_date y mo d ++ " " ++ pad2 h ++ ":" ++ pad2 mi ++ ":" ++ pad2 s

/-- The per-value step of every engine's `_format_dates`: date and
datetime values are rendered as fixed-format strings, all other values
pass through unchanged. -/
def format_date_val : PyVal → PyVal
  | .vDate y m d => .vStr (fmt_date y m d)
  | .vDatetime y mo d h mi s => .vStr (fmt_datetime y mo d h mi s)
  | v => v

/-- `_format_dates(record)`, shared verbatim by all four CRUD engines. -/
def format_dates (r : Record) : Record :=
  r.map fun kv => (kv.1, format_date_val kv.2)

/-- `record[key]` on a fetched dict row; absent keys yield `vNone`
(the concrete runs below only ever look up present keys). -/
def record_get (r : Record) (k : String) : PyVal :=
  match r.find? fun kv => kv.1 = k with
  | some kv => kv.2
  | none => PyVal.vNone

def as_str : PyVal → String
  | .vStr s => s
  | _ => ""

/-- Python `str(v)`; only the string case is ever exercised by the
claims (the SQL Server length scan applies it to the sampled column). -/
def py_str_of : PyVal → String
  | .vNone => "None"
  | .vBool b => if b then "True" else "False"
  | .vInt n => toString n
  | .vFloat lit => lit
  | .vStr s => s
  | .vDate y m d => fmt_date y m d
  | .vDatetime y mo d h mi s => fmt_date y mo d ++ " " ++ pad2 h ++ ":" ++ pad2 mi ++ ":" ++ pad2 s
  | .vBytes _ => ""
  | .vDict => ""
  | .vList => ""

/-- `next((row[idx] for row in values if row[idx] is not None), None)` —
the first-non-null sampling shared by the MySQL and Oracle engines. -/
def first_non_none (values : List (List PyVal)) (idx : Nat) : Option PyVal :=
  values.findSome? fun row =>
    match row.getD idx PyVal.vNone with
    | PyVal.vNone => none
    | v => some v

/-- `MySQLGenericCRUD._infer_column_types`'s `type_mapping` dictionary
(`int: INT, float: FLOAT, str: VARCHAR(255), date: DATE, datetime:
DATETIME`, default `VARCHAR(255)`). -/
def mysql_type_of : PyVal → String
  | .vInt _ => "INT"
  | .vFloat _ => "FLOAT"
  | .vStr _ => "VARCHAR(255)"
  | .vDate .. => "DATE"
  | .vDatetime .. => "DATETIME"
  | _ => "VARCHAR(255)"

/-- `MySQLGenericCRUD._infer_column_types`: first non-null sample per
column, mapped through `type_mapping`, default `VARCHAR(255)`. -/
def MySQLGenericCRUD.infer_column_types (values : List (List PyVal)) (columns : List String) :
    List (String × String) :=
  columns.enum.map fun ic =>
    (ic.2, match first_non_none values ic.1 with
           | none => "VARCHAR(255)"
           | some v => mysql_type_of v)

/-- `PostgresqlGenericCRUD._infer_column_types`'s `type_mapping`
dictionary, default `TEXT`. -/
def pg_type_of : PyVal → String
  | .vInt _ => "INTEGER"
  | .vFloat _ => "DOUBLE PRECISION"
  | .vStr _ => "TEXT"
  | .vDate .. => "DATE"
  | .vDatetime .. => "TIMESTAMP"
  | .vBool _ => "BOOLEAN"
  | .vBytes _ => "BYTEA"
  | .vDict => "JSONB"
  | .vList => "JSONB"
  | .vNone => "TEXT"

/-- The per-column body of `PostgresqlGenericCRUD._infer_column_types`:
samples every non-null value of the column, falls back to the string
type when the column mixes types, and marks the declared primary key
(`SERIAL PRIMARY KEY` for an integer sample, otherwise the inferred
type suffixed ` PRIMARY KEY`); a column with no non-null sample is
`TEXT` with no primary-key marking. -/
def PostgresqlGenericCRUD.infer_one (values : List (List PyVal))
    (primary_key : Option String) (ic : Nat × String) : String :=
  let samples := values.filterMap fun row =>
    match row.getD ic.1 PyVal.vNone with
    | PyVal.vNone => none
    | v => some v
  match samples with
  | [] => "TEXT"
  | v0 :: rest =>
    let isMixed := rest.any fun v => v.tag != v0.tag
    let sql0 := if isMixed then "TEXT" else pg_type_of v0
    let isIntType := (!isMixed) && (match v0 with | .vInt _ => true | _ => false)
    if primary_key = some ic.2 then
      (if isIntType then "SERIAL PRIMARY KEY" else sql0 ++ " PRIMARY KEY")
    else sql0

/-- `PostgresqlGenericCRUD._infer_column_types`: one inferred SQL type
per column, keyed by the column name in order. -/
def PostgresqlGenericCRUD.infer_column_types (values : List (List PyVal)) (columns : List String)
    (primary_key : Option String) : List (String × String) :=
  columns.enum.map fun ic => (ic.2, PostgresqlGenericCRUD.infer_one values primary_key ic)

/-- `OracleGenericCRUD._infer_column_types`'s `type_mapping` dictionary,
default `VARCHAR2(255)`. -/
def oracle_type_of : PyVal → String
  | .vInt _ => "NUMBER"
  | .vFloat _ => "FLOAT"
  | .vStr _ => "VARCHAR2(255)"
  | .vDate .. => "DATE"
  | .vDatetime .. => "TIMESTAMP"
  | _ => "VARCHAR2(255)"

/-- `OracleGenericCRUD._infer_column_types`: first non-null sample per
column, with the primary-key column suffixed ` PRIMARY KEY`. -/
def OracleGenericCRUD.infer_column_types (values : List (List PyVal)) (columns : List String)
    (primary_key : Option String) : List (String × String) :=
  columns.enum.map fun ic =>
    let base := match first_non_none values ic.1 with
      | none => "VARCHAR2(255)"
      | some v => oracle_type_of v
    (ic.2, if primary_key = some ic.2 then base ++ " PRIMARY KEY" else base)

/-- `SQLServerGenericCRUD._infer_column_types`: `VARCHAR(MAX)` for empty
samples, `BIT`/`INT`/`BIGINT`/`FLOAT`/`DATETIME2`/`DATE` by isinstance
dispatch on the first non-null value (rows shorter than the column index
are skipped), and for string samples a doubled-length `VARCHAR` sized
from the longest stringified non-null value of the column. -/
def SQLServerGenericCRUD.infer_column_types (values : List (List PyVal)) (columns : List String) :
    List (String × String) :=
  if values.isEmpty then columns.map fun c => (c, "VARCHAR(MAX)")
  else
    columns.enum.map fun ic =>
      let idx := ic.1
      let firstv := values.findSome? fun row =>
        if idx < row.length then
          match row.getD idx PyVal.vNone with
          | PyVal.vNone => none
          | v => some v
        else none
      let ctype := match firstv with
        | none => "VARCHAR(MAX)"
        | some v =>
          match v with
          | .vBool _ => "BIT"
          | .vInt n => if n.natAbs ≤ 2147483647 then "INT" else "BIGINT"
          | .vFloat _ => "FLOAT"
          | .vDatetime .. => "DATETIME2"
          | .vDate .. => "DATE"
          | .vStr _ =>
            let lens := values.filterMap fun row =>
              match row.getD idx PyVal.vNone with
              | PyVal.vNone => none
              | w => some (py_str_of w).length
            let max_length := lens.foldl max 0
            if max_length ≤ 4000 then "VARCHAR(" ++ toString (max (max_length * 2) 50) ++ ")"
            else "VARCHAR(MAX)"
          | _ => "VARCHAR(MAX)"
      (ic.2, ctype)

/-- The §8 type-inference scenario: `[(1, 10.5, date(2024,1,1))]` with
columns `["customer_id", "amount", "created"]`. -/
def c4_sample_values : List (List PyVal) :=
  [[PyVal.vInt 1, PyVal.vFloat "10.5", PyVal.vDate 2024 1 1]]

def c4_sample_columns : List String :=
  ["customer_id", "amount", "created"]

/-- A raised Python exception, as far as the database layer
distinguishes them: `ValueError` (validation), `TypeError` (interface
misuse), `DatabaseConnectionError` (the wrapper from
`base_database.py`), and a backend-native driver exception that was not
re-wrapped (tagged with its backend). -/
inductive PyError where
  | valueError (msg : String)
  | typeError (msg : String)
  | dbError (msg : String)
  | nativeError (backend : String) (msg : String)
  deriving DecidableEq, Repr

/-- What a client's `execute_query` hands back: fetched rows for a
statement that produced a result set, or the affected-row count
otherwise. -/
inductive ExecResult where
  | rows (rs : List Record)
  | count (n : Int)
  deriving DecidableEq, Repr

/-- Result of `execute_raw_query`: a record list for read-like
statements, Python `None`, or a passed-through affected-row count. -/
inductive RawResult where
  | records (rs : List Record)
  | count (n : Int)
  | rnone
  deriving DecidableEq, Repr

/-- The §6 connection contract as the CRUD engines consume it:
`exec query params fetch_as_dict` and `execBatch query values`.  A
client is a pure oracle for the backend's responses; the CRUD
embeddings below additionally return the list of query strings they
handed to the client, in order, so that "no SQL was issued" is a
statement about that trace. -/
structure CrudClient where
  exec : String → List PyVal → Bool → Except PyError ExecResult
  execBatch : String → List (List PyVal) → Except PyError Unit

/-- `PostgresqlGenericCRUD._validate_table_name`: Python
`re.match(r'^[A-Za-z][A-Za-z0-9_]*$', name)`.  The `$` anchor of `re`
also matches just before one trailing newline, which the embedding
keeps. -/
def PostgresqlGenericCRUD.validate_table_name (s : String) : Bool :=
  let t := if s.data.getLast? = some (Char.ofNat 10) then s.data.dropLast else s.data
  match t with
  | [] => false
  | c :: cs => c.isAlpha && cs.all fun d => d.isAlpha || d.isDigit || d = Char.ofNat 95

/-- `OracleGenericCRUD._validate_table_name`: Python
`re.match(r'^[A-Za-z0-9_]+$', name)` — a looser pattern that accepts a
leading digit. -/
def OracleGenericCRUD.validate_table_name (s : String) : Bool :=
  let t := if s.data.getLast? = some (Char.ofNat 10) then s.data.dropLast else s.data
  !t.isEmpty && t.all fun d => d.isAlpha || d.isDigit || d = Char.ofNat 95

/-- Modelled from the spec: the `retry` decorator imported from
`helpers.utils` (a module absent from `src/`), per §4.4 RetryExecutor —
the wrapped operation is re-invoked after a failure until it succeeds
or the retries are exhausted, and then the last error is re-raised.
The query traces of all attempts accumulate.  Sleeping is irrelevant to
the properties below and is not modelled. -/
def retryWrap {α : Type} (max_retries : Nat) (body : Unit → List String × Except PyError α) :
    List String × Except PyError α :=
  match max_retries with
  | 0 => body ()
  | n + 1 =>
    match body () with
    | (t, .ok a) => (t, .ok a)
    | (t, .error _) =>
      let r := retryWrap n body
      (t ++ r.1, r.2)

/-- `is_select_query = query.strip().lower().startswith('select')` —
the read-like classification shared by all `execute_raw_query`
implementations. -/
def is_select_query (q : String) : Bool :=
  let stripped := ((q.data.dropWhile Char.isWhitespace).reverse.dropWhile
    Char.isWhitespace).reverse
  "select".data.isPrefixOf (stripped.map Char.toLower)

/-- The `INFORMATION_SCHEMA.COLUMNS` query string built by
`MySQLGenericCRUD._get_table_columns`. -/
def MySQLGenericCRUD.columns_query (show_id : Bool) : String :=
  "\n        SELECT COLUMN_NAME\n        FROM INFORMATION_SCHEMA.COLUMNS\n        WHERE TABLE_NAME = %s\n        AND TABLE_SCHEMA = DATABASE()\n        "
  ++ (if show_id then "" else "AND COLUMN_NAME != \x27id\x27 ")
  ++ "ORDER BY ORDINAL_POSITION"

/-- `MySQLGenericCRUD._get_table_columns`: runs the catalog query with
`fetch_as_dict=True` and projects `COLUMN_NAME` from each row.  A
`count` response would be iterated by the Python source and raise
`TypeError`. -/
def MySQLGenericCRUD.get_table_columns (client : CrudClient) (table : String)
    (show_id : Bool) : List String × Except PyError (List String) :=
  let q := MySQLGenericCRUD.columns_query show_id
  match client.exec q [PyVal.vStr table] true with
  | .ok (.rows rs) => ([q], .ok (rs.map fun r => as_str (record_get r "COLUMN_NAME")))
  | .ok (.count _) => ([q], .error (.typeError "int object is not iterable"))
  | .error e => ([q], .error e)

/-- The `CREATE TABLE` statement built by
`MySQLGenericCRUD.create_table_if_not_exists` from the inferred column
types. -/
def MySQLGenericCRUD.create_table_query (table : String) (columns : List String)
    (values : List (List PyVal)) : String :=
  "CREATE TABLE " ++ table ++ " ("
  ++ String.intercalate ", "
       ((MySQLGenericCRUD.infer_column_types values columns).map fun cd => cd.1 ++ " " ++ cd.2)
  ++ ")"

/-- `MySQLGenericCRUD.create_table_if_not_exists`: re-introspects the
catalog, returns silently when columns already exist, otherwise infers
types and executes the `CREATE TABLE`.  Note: no table-name validation
of any kind. -/
def MySQLGenericCRUD.create_table_if_not_exists (client : CrudClient) (table : String)
    (columns : List String) (values : List (List PyVal)) :
    List String × Except PyError Unit :=
  match MySQLGenericCRUD.get_table_columns client table false with
  | (t, .error e) => (t, .error e)
  | (t, .ok existing) =>
    if existing ≠ [] then (t, .ok ())
    else
      let create_query := MySQLGenericCRUD.create_table_query table columns values
      match client.exec create_query [] false with
      | .ok _ => (t ++ [create_query], .ok ())
      | .error e => (t ++ [create_query], .error e)

/-- The `INSERT` statement built by `MySQLGenericCRUD.create`. -/
def MySQLGenericCRUD.insert_query (table : String) (columns : List String) : String :=
  "INSERT INTO " ++ table ++ " (" ++ String.intercalate ", " columns ++ ") VALUES ("
  ++ String.intercalate ", " (columns.map fun _ => "%s") ++ ")"

/-- `MySQLGenericCRUD.create`: introspects the catalog, creates the
table when absent (requiring `columns`), re-reads the columns, then
validates every tuple's length against the column count and finally
batch-executes the `INSERT`.  Rows are embedded as lists (the source's
tuple-or-list normalization is about Python value shapes only). -/
def MySQLGenericCRUD.create (client : CrudClient) (table : String)
    (values : List (List PyVal)) (columns? : Option (List String)) :
    List String × Except PyError Bool :=
  match MySQLGenericCRUD.get_table_columns client table false with
  | (t1, .error e) => (t1, .error e)
  | (t1, .ok existing) =>
    let ensured : List String × Except PyError (List String) :=
      if existing = [] then
        match columns? with
        | none => (t1, .error (.valueError "Columns must be provided when creating a new table."))
        | some cols =>
          match MySQLGenericCRUD.create_table_if_not_exists client table cols values with
          | (t2, .error e) => (t1 ++ t2, .error e)
          | (t2, .ok _) =>
            match MySQLGenericCRUD.get_table_columns client table false with
            | (t3, .error e) => (t1 ++ t2 ++ t3, .error e)
            | (t3, .ok ex2) => (t1 ++ t2 ++ t3, .ok ex2)
      else (t1, .ok existing)
    match ensured with
    | (t, .error e) => (t, .error e)
    | (t, .ok existing2) =>
      let columns := columns?.getD existing2
      match values.find? fun row => row.length != columns.length with
      | some row =>
        (t, .error (.valueError ("Number of values " ++ toString row.length
          ++ " does not match number of columns " ++ toString columns.length)))
      | none =>
        let query := MySQLGenericCRUD.insert_query table columns
        match client.execBatch query values with
        | .ok _ => (t ++ [query], .ok true)
        | .error e => (t ++ [query], .error e)

/-- `MySQLGenericCRUD.delete`: builds `DELETE FROM table [WHERE ...]`
and executes it unconditionally — there is no `safe_delete` parameter
and no refusal of an empty `where`. -/
def MySQLGenericCRUD.delete (client : CrudClient) (table wh : String)
    (params : List PyVal) : List String × Except PyError Bool :=
  let query := "DELETE FROM " ++ table ++ (if wh = "" then "" else " WHERE " ++ wh)
  match client.exec query params false with
  | .ok _ => ([query], .ok true)
  | .error e => ([query], .error e)

/-- `MySQLGenericCRUD.execute_raw_query`: read-like statements (by
`is_select_query`) are fetched as dict rows and date-normalized;
anything else is executed for effect and yields Python `None`. -/
def MySQLGenericCRUD.execute_raw_query (client : CrudClient) (q : String)
    (params : List PyVal) : List String × Except PyError RawResult :=
  if is_select_query q then
    match client.exec q params true with
    | .ok (.rows rs) => ([q], .ok (.records (rs.map format_dates)))
    | .ok (.count _) => ([q], .error (.typeError "int object is not iterable"))
    | .error e => ([q], .error e)
  else
    match client.exec q params false with
    | .ok _ => ([q], .ok .rnone)
    | .error e => ([q], .error e)

/-- `OracleGenericCRUD.execute_raw_query` — the same shape as the MySQL
implementation. -/
def OracleGenericCRUD.execute_raw_query (client : CrudClient) (q : String)
    (params : List PyVal) : List String × Except PyError RawResult :=
  if is_select_query q then
    match client.exec q params true with
    | .ok (.rows rs) => ([q], .ok (.records (rs.map format_dates)))
    | .ok (.count _) => ([q], .error (.typeError "int object is not iterable"))
    | .error e => ([q], .error e)
  else
    match client.exec q params false with
    | .ok _ => ([q], .ok .rnone)
    | .error e => ([q], .error e)

/-- The `information_schema.columns` query string built by
`PostgresqlGenericCRUD._get_table_columns`. -/
def PostgresqlGenericCRUD.columns_query (show_id : Bool) : String :=
  "\n        SELECT column_name, data_type, character_maximum_length,\n               is_nullable, column_default, is_identity\n        FROM information_schema.columns\n        WHERE table_name = %s\n        "
  ++ (if show_id then "" else " AND column_name != \x27id\x27")
  ++ " ORDER BY ordinal_position"

/-- `PostgresqlGenericCRUD._get_table_columns`. -/
def PostgresqlGenericCRUD.get_table_columns (client : CrudClient) (table : String)
    (show_id : Bool) : List String × Except PyError (List String) :=
  let q := PostgresqlGenericCRUD.columns_query show_id
  match client.exec q [PyVal.vStr table] true with
  | .ok (.rows rs) => ([q], .ok (rs.map fun r => as_str (record_get r "column_name")))
  | .ok (.count _) => ([q], .error (.typeError "int object is not iterable"))
  | .error e => ([q], .error e)

/-- The existence-check query of
`PostgresqlGenericCRUD.create_table_if_not_exists`. -/
def PostgresqlGenericCRUD.check_exists_query : String :=
  "\n        SELECT COUNT(*) AS table_exists\n        FROM information_schema.tables\n        WHERE table_name = %s\n        "

/-- The `CREATE TABLE` statement built by
`PostgresqlGenericCRUD.create_table_if_not_exists` (a triple-quoted
f-string, whitespace included). -/
def PostgresqlGenericCRUD.create_table_statement (table : String) (columns : List String)
    (values : List (List PyVal)) (primary_key : Option String) : String :=
  "\n            CREATE TABLE " ++ table ++ " (\n                "
  ++ String.intercalate ", "
       ((PostgresqlGenericCRUD.infer_column_types values columns primary_key).map
         fun cd => cd.1 ++ " " ++ cd.2)
  ++ "\n            )\n            "

/-- `PostgresqlGenericCRUD.create_table_if_not_exists`: validates the
table name, counts the table in `information_schema.tables`, and when
absent creates it from the inferred column types.  An ill-typed count
response would be indexed by the Python source and raise. -/
def PostgresqlGenericCRUD.create_table_if_not_exists (client : CrudClient) (table : String)
    (columns : List String) (values : List (List PyVal)) (primary_key : Option String) :
    List String × Except PyError Unit :=
  if ¬ PostgresqlGenericCRUD.validate_table_name table then
    ([], .error (.valueError ("Invalid table name: " ++ table)))
  else
    let cq := PostgresqlGenericCRUD.check_exists_query
    match client.exec cq [PyVal.vStr table] true with
    | .error e => ([cq], .error e)
    | .ok (.count _) => ([cq], .error (.typeError "int object is not subscriptable"))
    | .ok (.rows []) => ([cq], .error (.typeError "list index out of range"))
    | .ok (.rows (r :: _)) =>
      let n : Int := match record_get r "table_exists" with
        | .vInt n => n
        | _ => 0
      if n > 0 then ([cq], .ok ())
      else
        let create_query := PostgresqlGenericCRUD.create_table_statement table columns values primary_key
        match client.exec create_query [] false with
        | .ok _ => ([cq, create_query], .ok ())
        | .error e => ([cq, create_query], .error e)

/-- The `INSERT ... VALUES %s` statement built by
`PostgresqlGenericCRUD.create` for `execute_values`. -/
def PostgresqlGenericCRUD.insert_query (table : String) (columns : List String) : String :=
  "INSERT INTO " ++ table ++ " (" ++ String.intercalate ", " columns ++ ") VALUES %s"

/-- The batch loop of `PostgresqlGenericCRUD.create`: batch `k` is
`values[k*batch_size : min((k+1)*batch_size, len(values))]`; a failing
batch aborts the loop (the surrounding `try` of `create` then returns
`False`). `rem` counts the remaining batches. -/
def PostgresqlGenericCRUD.insert_batches (client : CrudClient) (query : String)
    (values : List (List PyVal)) (batch_size : Nat) :
    Nat → Nat → List String × Bool
  | _, 0 => ([], true)
  | batch_num, rem + 1 =>
    let start := batch_num * batch_size
    let stop := min ((batch_num + 1) * batch_size) values.length
    let batch := (values.drop start).take (stop - start)
    match client.execBatch query batch with
    | .ok _ =>
      let r := PostgresqlGenericCRUD.insert_batches client query values batch_size (batch_num + 1) rem
      (query :: r.1, r.2)
    | .error _ => ([query], false)

/-- The body of `PostgresqlGenericCRUD.create` (the function the
`@retry` decorator wraps): validate the table name, default the
columns from the catalog, validate every tuple's length, ensure the
table exists, then insert in batches; a failure inside the insert loop
is caught and returned as `False`. -/
def PostgresqlGenericCRUD.create_body (client : CrudClient) (table : String)
    (values : List (List PyVal)) (columns? : Option (List String))
    (primary_key : Option String) (batch_size : Nat) :
    List String × Except PyError Bool :=
  if ¬ PostgresqlGenericCRUD.validate_table_name table then
    ([], .error (.valueError ("Invalid table name: " ++ table)))
  else
    let fetched : List String × Except PyError (List String) :=
      match columns? with
      | some cs => ([], .ok cs)
      | none => PostgresqlGenericCRUD.get_table_columns client table false
    match fetched with
    | (t0, .error e) => (t0, .error e)
    | (t0, .ok columns) =>
      match values.find? fun row => row.length != columns.length with
      | some row =>
        (t0, .error (.valueError ("Number of values " ++ toString row.length
          ++ " does not match number of columns " ++ toString columns.length)))
      | none =>
        match PostgresqlGenericCRUD.create_table_if_not_exists client table columns values primary_key with
        | (t1, .error e) => (t0 ++ t1, .error e)
        | (t1, .ok _) =>
          let query := PostgresqlGenericCRUD.insert_query table columns
          let total_batches := (values.length - 1) / batch_size + 1
          let r := PostgresqlGenericCRUD.insert_batches client query values batch_size 0 total_batches
          (t0 ++ t1 ++ r.1, .ok r.2)

/-- `PostgresqlGenericCRUD.create` = `@retry(max_retries=5, ...)` around
`create_body`. -/
def PostgresqlGenericCRUD.create (client : CrudClient) (table : String)
    (values : List (List PyVal)) (columns? : Option (List String))
    (primary_key : Option String) (batch_size : Nat) :
    List String × Except PyError Bool :=
  retryWrap 5 fun _ =>
    PostgresqlGenericCRUD.create_body client table values columns? primary_key batch_size

/-- The body of `PostgresqlGenericCRUD.delete`: validates the table
name, refuses an empty `where` under `safe_delete`, and otherwise
executes the `DELETE` (catching execution errors as `False`). -/
def PostgresqlGenericCRUD.delete_body (client : CrudClient) (table wh : String)
    (params : List PyVal) (batch_size : Option Nat) (safe_delete : Bool) :
    List String × Except PyError Bool :=
  if ¬ PostgresqlGenericCRUD.validate_table_name table then
    ([], .error (.valueError ("Invalid table name: " ++ table)))
  else if safe_delete && wh = "" then
    ([], .error (.valueError "WHERE clause required for safe delete operation"))
  else
    let query := "DELETE FROM " ++ table
      ++ (if wh = "" then "" else " WHERE " ++ wh)
      ++ (match batch_size with
          | some b => if b = 0 then "" else " LIMIT " ++ toString b
          | none => "")
    match client.exec query params false with
    | .ok _ => ([query], .ok true)
    | .error _ => ([query], .ok false)

/-- `PostgresqlGenericCRUD.delete` = `@retry(max_retries=5, ...)` around
`delete_body`. -/
def PostgresqlGenericCRUD.delete (client : CrudClient) (table wh : String)
    (params : List PyVal) (batch_size : Option Nat) (safe_delete : Bool) :
    List String × Except PyError Bool :=
  retryWrap 5 fun _ =>
    PostgresqlGenericCRUD.delete_body client table wh params batch_size safe_delete

/-- `PostgresqlGenericCRUD.execute_raw_query`: executes the statement
once (with `fetch_as_dict` defaulting to `True`), returns
date-normalized records when it is read-like and `fetch_as_dict` is
set, and otherwise returns the client's raw result — for a non-SELECT
statement that is the affected-row count, not `None`. -/
def PostgresqlGenericCRUD.execute_raw_query (client : CrudClient) (q : String)
    (params : List PyVal) (fetch_as_dict : Bool) :
    List String × Except PyError RawResult :=
  match client.exec q params fetch_as_dict with
  | .error e => ([q], .error e)
  | .ok res =>
    if is_select_query q && fetch_as_dict then
      match res with
      | .rows rs => ([q], .ok (.records (rs.map format_dates)))
      | .count _ => ([q], .error (.typeError "int object is not iterable"))
    else
      ([q], .ok (match res with
                 | .rows rs => .records rs
                 | .count n => .count n))

/-!
Semantic backend model.  The round-trip property relates `create` to
`read` through the database itself; the SQL semantics live in the
external drivers (psycopg2 / mysql-connector), so they are modelled
here by an explicit state: a database is a list of named tables, each a
column list in declaration order plus the stored rows.  Catalog
introspection lists a table's columns, `execute_values`/`executemany`
appends the given tuples, and a `SELECT` of columns projects each
stored row.  The CRUD control flow over this state mirrors the Python
sources line by line. -/

structure SemTable where
  cols : List String
  rows : List (List PyVal)
  deriving DecidableEq, Repr

abbrev SemDB := List (String × SemTable)

def Sem.lookup (db : SemDB) (t : String) : Option SemTable :=
  (db.find? fun e => e.1 = t).map fun e => e.2

/-- The semantic effect of the `INSERT INTO t (c1..cn) VALUES ...` batch
executions: the tuples are appended to table `t`.  (In the fresh-table
path proved below the insert's column list coincides with the table's
column list, so positional appending is exact.) -/
def Sem.append_rows (db : SemDB) (t : String) (new : List (List PyVal)) : SemDB :=
  db.map fun e => if e.1 = t then (e.1, ⟨e.2.cols, e.2.rows ++ new⟩) else e

/-- `PostgresqlGenericCRUD._get_table_columns` over the semantic
backend: the `information_schema.columns` query lists the table's
columns in ordinal order, minus `id` unless `show_id`. -/
def Sem.pg_get_table_columns (db : SemDB) (table : String) (show_id : Bool) : List String :=
  match Sem.lookup db table with
  | none => []
  | some t => if show_id then t.cols else t.cols.filter fun c => c ≠ "id"

/-- The batches of `PostgresqlGenericCRUD.create`:
`total_batches = (len(values) - 1) // batch_size + 1` and batch `k` is
`values[k*batch_size : min((k+1)*batch_size, len(values))]`. -/
def Sem.pg_batches (values : List (List PyVal)) (batch_size : Nat) :
    List (List (List PyVal)) :=
  (List.range ((values.length - 1) / batch_size + 1)).map fun k =>
    (values.drop (k * batch_size)).take
      (min ((k + 1) * batch_size) values.length - k * batch_size)

/-- `PostgresqlGenericCRUD.create_table_if_not_exists` over the
semantic backend: no-op when the table already exists, otherwise the
table is created with the inferred columns (in the source's insertion
order, i.e. the given column order) and no rows. -/
def Sem.pg_create_table_if_not_exists (db : SemDB) (table : String) (columns : List String)
    (values : List (List PyVal)) (primary_key : Option String) : Except PyError SemDB :=
  if ¬ PostgresqlGenericCRUD.validate_table_name table then
    .error (.valueError ("Invalid table name: " ++ table))
  else if (Sem.lookup db table).isSome then .ok db
  else
    let column_types := PostgresqlGenericCRUD.infer_column_types values columns primary_key
    .ok (db ++ [(table, ⟨column_types.map fun cd => cd.1, []⟩)])

/-- `PostgresqlGenericCRUD.create` over the semantic backend (the
success path of the `@retry`-wrapped body, which returns after its
first successful attempt). -/
def Sem.pg_create (db : SemDB) (table : String) (values : List (List PyVal))
    (columns? : Option (List String)) (primary_key : Option String) (batch_size : Nat) :
    Except PyError (SemDB × Bool) :=
  if ¬ PostgresqlGenericCRUD.validate_table_name table then
    .error (.valueError ("Invalid table name: " ++ table))
  else
    let columns := columns?.getD (Sem.pg_get_table_columns db table false)
    match values.find? fun row => row.length != columns.length with
    | some row =>
      .error (.valueError ("Number of values " ++ toString row.length
        ++ " does not match number of columns " ++ toString columns.length))
    | none =>
      match Sem.pg_create_table_if_not_exists db table columns values primary_key with
      | .error e => .error e
      | .ok db1 =>
        let db2 := (Sem.pg_batches values batch_size).foldl
          (fun d batch => Sem.append_rows d table batch) db1
        .ok (db2, true)

/-- `PostgresqlGenericCRUD.read` over the semantic backend, in the
defaulted form `read(table)` (all non-id columns, no filter, no limit):
selecting columns from a table projects each stored row by column name
and date-normalizes the record. -/
def Sem.pg_read (db : SemDB) (table : String) (columns? : Option (List String))
    (show_id : Bool) : Except PyError (List Record) :=
  if ¬ PostgresqlGenericCRUD.validate_table_name table then
    .error (.valueError ("Invalid table name: " ++ table))
  else
    let columns := columns?.getD (Sem.pg_get_table_columns db table show_id)
    match Sem.lookup db table with
    | none => .error (.dbError ("relation " ++ table ++ " does not exist"))
    | some t =>
      .ok (t.rows.map fun row =>
        format_dates (columns.map fun c => (c, record_get (t.cols.zip row) c)))

/-!
Backend clients.  Each client method is embedded as the translation it
applies, at its contract boundary, to the outcome of the underlying
driver call: driver exceptions are values of `PyError.nativeError`, and
the embedding records which of them the method's `try/except` re-wraps
into `DatabaseConnectionError`. -/

/-- `MySQLClient`'s error translation inside a `try` block:
`except MySQLError as err: raise DatabaseConnectionError(err)`. -/
def MySQLClient.wrap_error : PyError → PyError
  | .nativeError be m => if be = "mysql" then .dbError m else .nativeError be m
  | e => e

/-- The boundary behavior of `MySQLClient.execute_query` (and of its
batch/transaction siblings), in two phases matching the source: the
pool checkout `with self.get_connection() as connection:` sits OUTSIDE
the `try/except`, so a native error raised there (such as `PoolError`,
a `MySQLError` subclass) propagates unwrapped; only errors raised
during cursor execution, inside the `try`, are re-wrapped as
`DatabaseConnectionError`. -/
def MySQLClient.execute_query_boundary (checkout : Except PyError Unit)
    (driver : Except PyError ExecResult) : Except PyError ExecResult :=
  match checkout with
  | .error e => .error e
  | .ok _ => driver.mapError MySQLClient.wrap_error

/-- The boundary behavior of `SQLServerClient.execute_query` (and
`execute_batch_query`): the `except pyodbc.Error` handler logs, records
the failed query, rolls back — and then ends in a bare `raise`, so the
native pyodbc error itself propagates across the boundary, never
re-wrapped. -/
def SQLServerClient.execute_query_boundary (driver : Except PyError ExecResult) :
    Except PyError ExecResult :=
  driver

/-- The boundary behavior of `SQLiteClient.execute_query`: the method
body has no `try/except` at all, so every driver outcome — including a
native `sqlite3.Error` — propagates unchanged. -/
def SQLiteClient.execute_query_boundary (driver : Except PyError ExecResult) :
    Except PyError ExecResult :=
  driver

/-- The boundary behavior of `SQLiteClient.connect`: `except
sqlite3.Error as err: raise DatabaseConnectionError(err)`. -/
def SQLiteClient.connect_boundary (driver : Except PyError Unit) : Except PyError Unit :=
  driver.mapError fun e =>
    match e with
    | .nativeError be m => if be = "sqlite3" then .dbError m else .nativeError be m
    | e => e

/-- The boundary behavior of `MongoDBClient.execute_query`: no
`try/except` — pymongo operation errors propagate unchanged (only
`connect` catches, and only `ConfigurationError`). -/
def MongoDBClient.execute_query_boundary (driver : Except PyError ExecResult) :
    Except PyError ExecResult :=
  driver

/-- `MySQLClient.execute_query` is declared
`def execute_query(self, query, params=None)`
(src/database/mysql_client.py:52): it accepts no `fetch_as_dict`
keyword.  Adapting `MySQLClient` to the client interface the CRUD
engines call therefore raises `TypeError` at call time whenever
`fetch_as_dict` is passed, before anything reaches the driver;
positional calls behave as the given underlying functions. -/
def MySQLClient.as_crud_client (raw : String → List PyVal → Except PyError ExecResult)
    (rawBatch : String → List (List PyVal) → Except PyError Unit) : CrudClient where
  exec := fun q p fad =>
    if fad then
      .error (.typeError "execute_query() got an unexpected keyword argument \x27fetch_as_dict\x27")
    else raw q p
  execBatch := rawBatch

/-- A pool object as `MySQLClient` holds it (`mysql.connector`'s pool
has no close method; the client just drops the reference). -/
structure MySQLPool where
  id : Nat
  deriving DecidableEq, Repr

structure MySQLClientState where
  connection_pool : Option MySQLPool
  deriving DecidableEq, Repr

/-- `MySQLClient.disconnect`: `if self.connection_pool:
self.connection_pool = None`. -/
def MySQLClient.disconnect (s : MySQLClientState) : MySQLClientState :=
  match s.connection_pool with
  | some _ => ⟨none⟩
  | none => s

structure PGPool where
  id : Nat
  deriving DecidableEq, Repr

structure PostgreSQLClientState where
  connection_pool : Option PGPool
  local_connection : Option Nat
  deriving DecidableEq, Repr

/-- `PostgreSQLClient.disconnect`: when a pool exists, the thread-local
connection is returned and cleared, `closeall()` runs and the pool
attribute is set to `None`; otherwise nothing happens. -/
def PostgreSQLClient.disconnect (s : PostgreSQLClientState) : PostgreSQLClientState :=
  match s.connection_pool with
  | some _ => ⟨none, none⟩
  | none => s

/-- An `oracledb` session pool: `close()` only flips its state. -/
structure OraclePool where
  closed : Bool
  deriving DecidableEq, Repr

structure OracleClientState where
  pool : Option OraclePool
  deriving DecidableEq, Repr

/-- `OracleClient.disconnect`: `if self.pool: self.pool.close()` — the
pool is closed but `self.pool` is never cleared, so the (closed) pool
instance is still referenced afterwards. -/
def OracleClient.disconnect (s : OracleClientState) : OracleClientState :=
  match s.pool with
  | some _ => ⟨some ⟨true⟩⟩
  | none => s

/-- An SQLite database file, as far as `connect` touches it: the set of
existing tables. -/
structure SQLiteDBFile where
  tables : List String
  deriving DecidableEq, Repr

/-- `SQLiteClient.connect`: opens the file (`connectOk` models whether
`sqlite3.connect` succeeds; failures are re-wrapped as
`DatabaseConnectionError`) and then always runs
`CREATE TABLE IF NOT EXISTS test_table (id INTEGER PRIMARY KEY
AUTOINCREMENT, name TEXT NOT NULL, age INTEGER NOT NULL)` via
`_create_table_if_not_exists`. -/
def SQLiteClient.connect (connectOk : Bool) (db : SQLiteDBFile) :
    Except PyError SQLiteDBFile :=
  if connectOk then
    .ok ⟨if "test_table" ∈ db.tables then db.tables
         else db.tables ++ ["test_table"]⟩
  else .error (.dbError "unable to open database file")

/-- Outcome of `SSHTunnelManager.create_ssh_tunnel`: the sleeps
performed between attempts (in order) and either the local bound port
or the final re-raise. -/
inductive TunnelResult where
  | ok (sleeps : List Nat) (port : Nat)
  | failed (sleeps : List Nat)
  deriving DecidableEq, Repr

/-- The retry loop of `SSHTunnelManager.create_ssh_tunnel`.  `attempt k`
is the outcome of the `k`-th (1-based) `SSHTunnelForwarder` start:
`some port` on success, `none` on failure.  After the `r`-th failure the
loop computes `backoff = initial_backoff * 2^(r-1)`; it re-raises when
`r > max_retries` and otherwise sleeps `backoff` and loops.  `fuel`
bounds the unrolling of the `while True` and is chosen large enough in
`create_ssh_tunnel` to cover the `max_retries+1` possible attempts. -/
def SSHTunnelManager.tunnel_loop (attempt : Nat → Option Nat)
    (max_retries initial_backoff : Nat) :
    Nat → Nat → List Nat → TunnelResult
  | _, 0, sleeps => .failed sleeps
  | retries, fuel + 1, sleeps =>
    match attempt (retries + 1) with
    | some port => .ok sleeps port
    | none =>
      let r := retries + 1
      let backoff := initial_backoff * 2 ^ (r - 1)
      if r > max_retries then .failed sleeps
      else SSHTunnelManager.tunnel_loop attempt max_retries initial_backoff r fuel
        (sleeps ++ [backoff])

/-- `SSHTunnelManager.create_ssh_tunnel(max_retries, initial_backoff)`
run against the attempt oracle. -/
def SSHTunnelManager.create_ssh_tunnel (attempt : Nat → Option Nat)
    (max_retries initial_backoff : Nat) : TunnelResult :=
  SSHTunnelManager.tunnel_loop attempt max_retries initial_backoff 0 (max_retries + 2) []

/-- An attempt oracle that fails on the first `failCount` attempts and
then yields `port`. -/
def failThenSucceed (failCount port : Nat) : Nat → Option Nat :=
  fun k => if k ≤ failCount then none else some port

/-- A client whose every execution succeeds with an affected-row count
of 0 — the minimal well-behaved backend for concrete runs. -/
def okCountClient : CrudClient where
  exec := fun _ _ _ => .ok (.count 0)
  execBatch := fun _ _ => .ok ()

/-- A client with an empty catalog: fetches return no rows (so every
table appears absent), other executions succeed. -/
def emptyCatalogClient : CrudClient where
  exec := fun _ _ fad => if fad then .ok (.rows []) else .ok (.count 0)
  execBatch := fun _ _ => .ok ()

/-- A client whose catalog lists two columns `a`, `b` for any table. -/
def twoColCatalogClient : CrudClient where
  exec := fun _ _ fad =>
    if fad then
      .ok (.rows [[("COLUMN_NAME", PyVal.vStr "a")], [("COLUMN_NAME", PyVal.vStr "b")]])
    else .ok (.count 0)
  execBatch := fun _ _ => .ok ()

/-- A client whose every execution reports an affected-row count of 3. -/
def countThreeClient : CrudClient where
  exec := fun _ _ _ => .ok (.count 3)
  execBatch := fun _ _ => .ok ()

end EtlManager

namespace EtlManager

/-- A retried operation whose body deterministically raises without
touching the backend keeps raising without touching the backend. -/
theorem retryWrap_empty_error {α : Type} (n : Nat)
    (body : Unit → List String × Except PyError α) (e : PyError)
    (h : body () = ([], .error e)) : retryWrap n body = ([], .error e) := by
  induction n with
  | zero => simpa [retryWrap] using h
  | succ n ih => simp [retryWrap, h, ih]

/-- A retried operation returns its first successful attempt. -/
theorem retryWrap_ok {α : Type} (n : Nat)
    (body : Unit → List String × Except PyError α) (t : List String) (a : α)
    (h : body () = (t, .ok a)) : retryWrap n body = (t, .ok a) := by
  cases n <;> simp [retryWrap, h]

end EtlManager

namespace EtlManager

/-- C4: on sample rows [(1, 10.5, date(2024,1,1))] with columns
[customer_id, amount, created], each engine's _infer_column_types infers
an integer type for customer_id, a floating-point type for amount and a
date type for created, in the backend's native spelling: INT/FLOAT/DATE
for MySQL, INTEGER/DOUBLE PRECISION/DATE for PostgreSQL, INT/FLOAT/DATE
for SQL Server and NUMBER/FLOAT/DATE for Oracle. -/
theorem c4_infer_column_types_scenario :
    MySQLGenericCRUD.infer_column_types c4_sample_values c4_sample_columns
      = [("customer_id", "INT"), ("amount", "FLOAT"), ("created", "DATE")]
    ∧ PostgresqlGenericCRUD.infer_column_types c4_sample_values c4_sample_columns none
      = [("customer_id", "INTEGER"), ("amount", "DOUBLE PRECISION"), ("created", "DATE")]
    ∧ SQLServerGenericCRUD.infer_column_types c4_sample_values c4_sample_columns
      = [("customer_id", "INT"), ("amount", "FLOAT"), ("created", "DATE")]
    ∧ OracleGenericCRUD.infer_column_types c4_sample_values c4_sample_columns none
      = [("customer_id", "NUMBER"), ("amount", "FLOAT"), ("created", "DATE")] := by
  refine ⟨rfl, rfl, rfl, rfl⟩

end EtlManager

namespace EtlManager

/-- C2 counterexample: the MySQL generic CRUD engine has no
`safe_delete` — `delete("t")` with the empty default `where` issues
`DELETE FROM t` to the backend and returns `True`, raising no
validation error, so the claim fails for "every generic CRUD
engine". -/
theorem c2_counterexample_mysql_unrestricted_delete :
    MySQLGenericCRUD.delete okCountClient "t" "" [] = (["DELETE FROM t"], .ok true) := by
  rfl

/-- C2 (amended): only the PostgreSQL generic CRUD engine has
`safe_delete` (default `True`): for every client, valid table and
params, `delete` with an empty `where` raises the validation
`ValueError` before issuing any SQL, and with a non-empty `where` the
single `DELETE` statement is issued; the MySQL, Oracle and SQL Server
engines execute an unrestricted `DELETE` when `where` is empty. -/
theorem c2_pg_safe_delete_guard :
    (∀ (client : CrudClient) (table : String) (params : List PyVal),
        PostgresqlGenericCRUD.validate_table_name table = true →
        PostgresqlGenericCRUD.delete client table "" params none true
          = ([], .error (.valueError "WHERE clause required for safe delete operation")))
    ∧ (∀ (client : CrudClient) (table wh : String) (params : List PyVal),
        PostgresqlGenericCRUD.validate_table_name table = true → wh ≠ "" →
        (PostgresqlGenericCRUD.delete client table wh params none true).1
          = ["DELETE FROM " ++ table ++ " WHERE " ++ wh]) := by
  constructor
  · intro client table params hval
    apply retryWrap_empty_error
    simp [PostgresqlGenericCRUD.delete_body, hval]
  · intro client table wh params hval hwh
    have hq : ("DELETE FROM " ++ table ++ (if wh = "" then "" else " WHERE " ++ wh)
        ++ (match (none : Option Nat) with
            | some b => if b = 0 then "" else " LIMIT " ++ toString b
            | none => ""))
        = "DELETE FROM " ++ table ++ " WHERE " ++ wh := by
      simp [hwh, String.append_assoc]
    rcases hc : client.exec ("DELETE FROM " ++ table ++ " WHERE " ++ wh) params false with e | r
    · have : PostgresqlGenericCRUD.delete_body client table wh params none true
          = (["DELETE FROM " ++ table ++ " WHERE " ++ wh], .ok false) := by
        simp only [PostgresqlGenericCRUD.delete_body, hval, hq]
        simp [hwh, hc]
      rw [PostgresqlGenericCRUD.delete, retryWrap_ok 5 _ _ _ this]
    · have : PostgresqlGenericCRUD.delete_body client table wh params none true
          = (["DELETE FROM " ++ table ++ " WHERE " ++ wh], .ok true) := by
        simp only [PostgresqlGenericCRUD.delete_body, hval, hq]
        simp [hwh, hc]
      rw [PostgresqlGenericCRUD.delete, retryWrap_ok 5 _ _ _ this]

/-- C2 witness: the guard at a concrete input — `delete("t")` refuses
with the validation error, `delete("t", "id = %s", (1,))` issues
exactly the parameterized `DELETE`. -/
theorem c2_pg_safe_delete_guard_witness :
    PostgresqlGenericCRUD.delete okCountClient "t" "" [] none true
        = ([], .error (.valueError "WHERE clause required for safe delete operation"))
    ∧ (PostgresqlGenericCRUD.delete okCountClient "t" "id = %s" [PyVal.vInt 1] none true).1
        = ["DELETE FROM t WHERE id = %s"] :=
  ⟨c2_pg_safe_delete_guard.1 okCountClient "t" [] (by decide),
   by simpa using c2_pg_safe_delete_guard.2 okCountClient "t" "id = %s" [PyVal.vInt 1]
        (by decide) (by decide)⟩

/-- C3 counterexample: the MySQL generic CRUD engine performs no table
name validation at all — `create("DROP TABLE x", [(1,)], ["a"])`
raises nothing, issues three catalog queries, interpolates the
malicious name into a `CREATE TABLE` and an `INSERT`, and returns
`True`. -/
theorem c3_counterexample_mysql_create_malicious_name :
    MySQLGenericCRUD.create emptyCatalogClient "DROP TABLE x" [[PyVal.vInt 1]] (some ["a"])
      = ([MySQLGenericCRUD.columns_query false, MySQLGenericCRUD.columns_query false,
          "CREATE TABLE DROP TABLE x (a INT)", MySQLGenericCRUD.columns_query false,
          "INSERT INTO DROP TABLE x (a) VALUES (%s)"], .ok true) := by
  rfl

/-- C3 (amended): only the PostgreSQL generic CRUD engine validates the
table name against `^[A-Za-z][A-Za-z0-9_]*$` at the top of `create`:
for every client and every name failing the pattern, `create` raises
the validation `ValueError` before issuing any SQL.  The MySQL and SQL
Server engines perform no validation (the counterexample), and the
Oracle engine checks only the looser `^[A-Za-z0-9_]+$`, inside
`create_table_if_not_exists`, after catalog queries have already been
issued. -/
theorem c3_pg_create_validates_table_name :
    ∀ (client : CrudClient) (table : String) (values : List (List PyVal))
      (columns? : Option (List String)) (pk : Option String) (bs : Nat),
      PostgresqlGenericCRUD.validate_table_name table = false →
      PostgresqlGenericCRUD.create client table values columns? pk bs
        = ([], .error (.valueError ("Invalid table name: " ++ table))) := by
  intro client table values columns? pk bs h
  apply retryWrap_empty_error
  simp [PostgresqlGenericCRUD.create_body, h]

/-- C3 witness: both §8 example inputs rejected at a concrete client,
with the table-name pattern evaluated concretely. -/
theorem c3_pg_create_validates_table_name_witness :
    PostgresqlGenericCRUD.create okCountClient "1bad;table" [[PyVal.vInt 1]] (some ["a"]) none 1000
        = ([], .error (.valueError "Invalid table name: 1bad;table"))
    ∧ PostgresqlGenericCRUD.create okCountClient "DROP TABLE x" [[PyVal.vInt 1]] (some ["a"]) none 1000
        = ([], .error (.valueError "Invalid table name: DROP TABLE x")) :=
  ⟨by simpa using c3_pg_create_validates_table_name okCountClient "1bad;table"
        [[PyVal.vInt 1]] (some ["a"]) none 1000 (by decide),
   by simpa using c3_pg_create_validates_table_name okCountClient "DROP TABLE x"
        [[PyVal.vInt 1]] (some ["a"]) none 1000 (by decide)⟩

end EtlManager

namespace EtlManager

/-- C6 counterexample: for a non-read-like statement the PostgreSQL
engine's `execute_raw_query` does not return nothing — it passes the
client's raw result through, here the affected-row count 3. -/
theorem c6_counterexample_pg_raw_nonselect_returns_count :
    PostgresqlGenericCRUD.execute_raw_query countThreeClient "UPDATE t SET a = %s"
        [PyVal.vInt 1] true
      = (["UPDATE t SET a = %s"], .ok (.count 3))
    ∧ RawResult.count 3 ≠ RawResult.rnone := by
  refine ⟨rfl, by decide⟩

/-- C6 (amended): every engine classifies a statement as read-like by
the case-insensitive leading-keyword check on the stripped query
(`is_select_query`).  The MySQL and Oracle engines return the
date-normalized records exactly for read-like statements and `None`
otherwise; the PostgreSQL engine returns the date-normalized records
for read-like statements (with its default `fetch_as_dict=True`) but
passes the client's raw result — the affected-row count — through for
everything else instead of returning `None`. -/
theorem c6_raw_query_classification :
    (∀ (client : CrudClient) (q : String) (p : List PyVal) (r : ExecResult),
        is_select_query q = false → client.exec q p false = .ok r →
        MySQLGenericCRUD.execute_raw_query client q p = ([q], .ok .rnone)
          ∧ OracleGenericCRUD.execute_raw_query client q p = ([q], .ok .rnone))
    ∧ (∀ (client : CrudClient) (q : String) (p : List PyVal) (rs : List Record),
        is_select_query q = true → client.exec q p true = .ok (.rows rs) →
        MySQLGenericCRUD.execute_raw_query client q p
            = ([q], .ok (.records (rs.map format_dates)))
          ∧ PostgresqlGenericCRUD.execute_raw_query client q p true
            = ([q], .ok (.records (rs.map format_dates))))
    ∧ (∀ (client : CrudClient) (q : String) (p : List PyVal) (n : Int),
        is_select_query q = false → client.exec q p true = .ok (.count n) →
        PostgresqlGenericCRUD.execute_raw_query client q p true = ([q], .ok (.count n))) := by
  refine ⟨?_, ?_, ?_⟩
  · intro client q p r hsel hexec
    constructor
    · simp [MySQLGenericCRUD.execute_raw_query, hsel, hexec]
    · simp [OracleGenericCRUD.execute_raw_query, hsel, hexec]
  · intro client q p rs hsel hexec
    constructor
    · simp [MySQLGenericCRUD.execute_raw_query, hsel, hexec]
    · simp [PostgresqlGenericCRUD.execute_raw_query, hsel, hexec]
  · intro client q p n hsel hexec
    simp [PostgresqlGenericCRUD.execute_raw_query, hsel, hexec]

/-- C6 witness: the classification at concrete statements — a
non-SELECT returns `None` on MySQL/Oracle, a SELECT returns the
(empty) record list on MySQL and PostgreSQL, and a non-SELECT on
PostgreSQL passes the count through. -/
theorem c6_raw_query_classification_witness :
    (MySQLGenericCRUD.execute_raw_query okCountClient "DELETE FROM t WHERE id = %s" []
        = (["DELETE FROM t WHERE id = %s"], .ok .rnone)
      ∧ OracleGenericCRUD.execute_raw_query okCountClient "DELETE FROM t WHERE id = %s" []
        = (["DELETE FROM t WHERE id = %s"], .ok .rnone))
    ∧ (MySQLGenericCRUD.execute_raw_query emptyCatalogClient "SELECT a FROM t" []
        = (["SELECT a FROM t"], .ok (.records []))
      ∧ PostgresqlGenericCRUD.execute_raw_query emptyCatalogClient "SELECT a FROM t" [] true
        = (["SELECT a FROM t"], .ok (.records [])))
    ∧ PostgresqlGenericCRUD.execute_raw_query countThreeClient "DELETE FROM t WHERE id = %s" [] true
        = (["DELETE FROM t WHERE id = %s"], .ok (.count 3)) := by
  refine ⟨c6_raw_query_classification.1 okCountClient "DELETE FROM t WHERE id = %s" []
      (.count 0) (by decide) rfl, ?_, ?_⟩
  · have h := c6_raw_query_classification.2.1 emptyCatalogClient "SELECT a FROM t" [] []
      (by decide) rfl
    simpa using h
  · exact c6_raw_query_classification.2.2 countThreeClient "DELETE FROM t WHERE id = %s" [] 3
      (by decide) rfl

/-- C7 counterexample: `SQLiteClient.execute_query` has no try/except —
a native `sqlite3` driver error crosses the client boundary unchanged
instead of being re-wrapped as `DatabaseConnectionError`. -/
theorem c7_counterexample_sqlite_native_error_crosses_boundary :
    SQLiteClient.execute_query_boundary (.error (.nativeError "sqlite3" "disk I/O error"))
      = .error (.nativeError "sqlite3" "disk I/O error") := by
  rfl

/-- C7 (amended): the claimed re-wrapping is not uniform.  The MySQL
client re-wraps a native error raised during statement execution as
`DatabaseConnectionError` (preserving the message), but its pool
checkout sits outside the `try/except`, so a native `PoolError` raised
there escapes unwrapped; the SQL Server client's `execute_query` and
`execute_batch_query` handlers end in a bare `raise`, re-raising the
native pyodbc error; `SQLiteClient` wraps only in `connect` — its
`execute_query` has no handler — and `MongoDBClient.execute_query`
has no handler either.  Backend-native exception types therefore reach
the generic CRUD engine and its callers on the MySQL (checkout path),
SQL Server, SQLite and MongoDB backends. -/
theorem c7_error_wrapping_boundary :
    (∀ (m : String) (d : Except PyError ExecResult),
        MySQLClient.execute_query_boundary (.error (.nativeError "mysql" m)) d
          = .error (.nativeError "mysql" m))
    ∧ (∀ m : String,
        MySQLClient.execute_query_boundary (.ok ()) (.error (.nativeError "mysql" m))
          = .error (.dbError m))
    ∧ (∀ m : String, SQLServerClient.execute_query_boundary (.error (.nativeError "pyodbc" m))
        = .error (.nativeError "pyodbc" m))
    ∧ (∀ m : String, SQLiteClient.connect_boundary (.error (.nativeError "sqlite3" m))
        = .error (.dbError m))
    ∧ (∀ m : String, SQLiteClient.execute_query_boundary (.error (.nativeError "sqlite3" m))
        = .error (.nativeError "sqlite3" m))
    ∧ (∀ m : String, MongoDBClient.execute_query_boundary (.error (.nativeError "pymongo" m))
        = .error (.nativeError "pymongo" m)) := by
  refine ⟨fun m d => rfl, fun m => ?_, fun m => rfl, fun m => ?_, fun m => rfl, fun m => rfl⟩
  · simp [MySQLClient.execute_query_boundary, MySQLClient.wrap_error, Except.mapError]
  · simp [SQLiteClient.connect_boundary, Except.mapError]

/-- C9 counterexample: after `OracleClient.disconnect` on a client
holding a live pool, the `pool` attribute still references a pool
instance (the closed pool), contradicting "the client holds no pool
instance". -/
theorem c9_counterexample_oracle_pool_survives_disconnect :
    (OracleClient.disconnect ⟨some ⟨false⟩⟩).pool ≠ none := by
  decide

/-- C9 (amended): `disconnect` disposes the pool and clears the pool
attribute on the MySQL and PostgreSQL clients (and is a safe no-op
when no pool was ever created on all three); the Oracle client closes
its pool on disconnect but keeps referencing the closed pool
instance. -/
theorem c9_disconnect_pool_disposal :
    (∀ s : MySQLClientState, (MySQLClient.disconnect s).connection_pool = none)
    ∧ (∀ s : PostgreSQLClientState, (PostgreSQLClient.disconnect s).connection_pool = none)
    ∧ (∀ p : OraclePool, OracleClient.disconnect ⟨some p⟩ = ⟨some ⟨true⟩⟩)
    ∧ MySQLClient.disconnect ⟨none⟩ = ⟨none⟩
    ∧ PostgreSQLClient.disconnect ⟨none, none⟩ = ⟨none, none⟩
    ∧ OracleClient.disconnect ⟨none⟩ = ⟨none⟩ := by
  refine ⟨fun s => ?_, fun s => ?_, fun p => rfl, rfl, rfl, rfl⟩
  · rcases s with ⟨_ | p⟩ <;> rfl
  · rcases s with ⟨_ | p, lc⟩ <;> rfl

/-- C10: every successful `SQLiteClient.connect` leaves a table named
`test_table` in the database file — `connect` is not effect-free, since
it always runs `CREATE TABLE IF NOT EXISTS test_table (...)` via
`_create_table_if_not_exists`. -/
theorem c10_sqlite_connect_creates_test_table :
    ∀ (connectOk : Bool) (db db' : SQLiteDBFile),
      SQLiteClient.connect connectOk db = .ok db' →
      "test_table" ∈ db'.tables := by
  intro connectOk db db' h
  cases connectOk with
  | false => simp [SQLiteClient.connect] at h
  | true =>
    simp only [SQLiteClient.connect, if_true] at h
    cases h
    by_cases hm : "test_table" ∈ db.tables
    · simp [hm]
    · simp [hm]

/-- C10 witness: connecting to an empty database file creates
`test_table`. -/
theorem c10_sqlite_connect_creates_test_table_witness :
    "test_table" ∈ (SQLiteDBFile.mk ["test_table"]).tables :=
  c10_sqlite_connect_creates_test_table true ⟨[]⟩ ⟨["test_table"]⟩ rfl

end EtlManager

namespace EtlManager

/-- Peeling the first element off a shifted backoff schedule. -/
theorem range_map_pow_shift (b r n : Nat) :
    (List.range (n + 1)).map (fun i => b * 2 ^ (r + i))
      = b * 2 ^ r :: (List.range n).map (fun i => b * 2 ^ (r + 1 + i)) := by
  rw [List.range_succ_eq_map, List.map_cons, List.map_map]
  have hh : ∀ i ∈ List.range n, ((fun i => b * 2 ^ (r + i)) ∘ Nat.succ) i
      = b * 2 ^ (r + 1 + i) := by
    intro i _
    simp only [Function.comp_apply]
    congr 2
    omega
  rw [List.map_congr_left hh]
  norm_num

/-- Unrolling the tunnel retry loop against an oracle that fails the
first `fc'` attempts: from state `retries = r` with `fc` failures still
ahead and enough fuel, the loop sleeps
`initial_backoff * 2^(r+i)` for `i < fc` and then returns the port. -/
theorem tunnel_loop_fail_then_succeed (fc' p b max : Nat) :
    ∀ (fc r fuel : Nat) (s : List Nat), fc' = r + fc → r + fc ≤ max → fc + 1 ≤ fuel →
      SSHTunnelManager.tunnel_loop (failThenSucceed fc' p) max b r fuel s
        = .ok (s ++ (List.range fc).map fun i => b * 2 ^ (r + i)) p := by
  intro fc
  induction fc with
  | zero =>
    intro r fuel s hfc hle hfuel
    obtain ⟨f, rfl⟩ : ∃ f, fuel = f + 1 := ⟨fuel - 1, by omega⟩
    have hnone : failThenSucceed fc' p (r + 1) = some p := by
      simp only [failThenSucceed]
      have : ¬ (r + 1 ≤ fc') := by omega
      simp [this]
    simp [SSHTunnelManager.tunnel_loop, hnone]
  | succ fc ih =>
    intro r fuel s hfc hle hfuel
    obtain ⟨f, rfl⟩ : ∃ f, fuel = f + 1 := ⟨fuel - 1, by omega⟩
    have hfail : failThenSucceed fc' p (r + 1) = none := by
      simp only [failThenSucceed]
      have : r + 1 ≤ fc' := by omega
      simp [this]
    have hnotraise : ¬ (r + 1 > max) := by omega
    have step := ih (r + 1) f (s ++ [b * 2 ^ r]) (by omega) (by omega) (by omega)
    simp only [SSHTunnelManager.tunnel_loop, hfail, hnotraise, if_false]
    rw [Nat.add_sub_cancel, step, range_map_pow_shift]
    simp [List.append_assoc]

/-- Unrolling the tunnel retry loop against an always-failing oracle:
from state `retries = r` with `max = r + d` and enough fuel, the loop
sleeps `initial_backoff * 2^(r+i)` for `i < d` and then re-raises. -/
theorem tunnel_loop_all_fail (b max : Nat) :
    ∀ (d r fuel : Nat) (s : List Nat), max = r + d → d + 2 ≤ fuel →
      SSHTunnelManager.tunnel_loop (fun _ => none) max b r fuel s
        = .failed (s ++ (List.range d).map fun i => b * 2 ^ (r + i)) := by
  intro d
  induction d with
  | zero =>
    intro r fuel s hd hfuel
    obtain ⟨f, rfl⟩ : ∃ f, fuel = f + 1 := ⟨fuel - 1, by omega⟩
    have : r + 1 > max := by omega
    simp [SSHTunnelManager.tunnel_loop, this]
  | succ d ih =>
    intro r fuel s hd hfuel
    obtain ⟨f, rfl⟩ : ∃ f, fuel = f + 1 := ⟨fuel - 1, by omega⟩
    have hnotraise : ¬ (r + 1 > max) := by omega
    have step := ih (r + 1) f (s ++ [b * 2 ^ r]) (by omega) (by omega)
    simp only [SSHTunnelManager.tunnel_loop, hnotraise, if_false]
    rw [Nat.add_sub_cancel, step, range_map_pow_shift]
    simp [List.append_assoc]

/-- C8: a tunnel construction failing the first `failCount ≤
max_retries` attempts sleeps `initial_backoff * 2^(k-1)` before the
`k`-th retry (so `initial_backoff, 2*initial_backoff` for the
fails-twice-then-succeeds scenario) and then returns the bound port;
and when every attempt fails, the loop performs exactly `max_retries`
retries with the same backoff schedule and then re-raises. -/
theorem c8_tunnel_backoff_schedule :
    (∀ (failCount max_retries initial_backoff port : Nat),
        failCount ≤ max_retries →
        SSHTunnelManager.create_ssh_tunnel (failThenSucceed failCount port)
            max_retries initial_backoff
          = .ok ((List.range failCount).map fun i => initial_backoff * 2 ^ i) port)
    ∧ (∀ (max_retries initial_backoff : Nat),
        SSHTunnelManager.create_ssh_tunnel (fun _ => none) max_retries initial_backoff
          = .failed ((List.range max_retries).map fun i => initial_backoff * 2 ^ i)) := by
  constructor
  · intro failCount max_retries b port h
    have := tunnel_loop_fail_then_succeed failCount port b max_retries failCount 0
      (max_retries + 2) [] (by omega) (by omega) (by omega)
    rw [SSHTunnelManager.create_ssh_tunnel, this]
    simp
  · intro max_retries b
    have := tunnel_loop_all_fail b max_retries max_retries 0 (max_retries + 2) []
      (by omega) (by omega)
    rw [SSHTunnelManager.create_ssh_tunnel, this]
    simp

/-- C8 witness: the §8 scenario — failures on attempts 1 and 2,
success on attempt 3, `initial_backoff = 1`, `max_retries = 5` — sleeps
1 then 2 time units and returns the port; and with every attempt
failing it re-raises after the 5 retries, having slept
1, 2, 4, 8, 16. -/
theorem c8_tunnel_backoff_schedule_witness :
    SSHTunnelManager.create_ssh_tunnel (failThenSucceed 2 5432) 5 1
        = .ok ((List.range 2).map fun i => 1 * 2 ^ i) 5432
    ∧ ((List.range 2).map fun i => 1 * 2 ^ i) = [1, 2]
    ∧ SSHTunnelManager.create_ssh_tunnel (fun _ => none) 5 1
        = .failed ((List.range 5).map fun i => 1 * 2 ^ i)
    ∧ ((List.range 5).map fun i => 1 * 2 ^ i) = [1, 2, 4, 8, 16] :=
  ⟨c8_tunnel_backoff_schedule.1 2 5 1 5432 (by decide), by decide,
   c8_tunnel_backoff_schedule.2 5 1, by decide⟩

end EtlManager

namespace EtlManager

/-- The inferred column list keeps exactly the given column names, in
order. -/
theorem pg_infer_fst (values : List (List PyVal)) (columns : List String)
    (pk : Option String) :
    (PostgresqlGenericCRUD.infer_column_types values columns pk).map (fun cd => cd.1)
      = columns := by
  unfold PostgresqlGenericCRUD.infer_column_types
  rw [List.map_map]
  exact List.enum_map_snd columns

/-- Each PostgreSQL insert batch is just the next `batch_size` rows. -/
theorem pg_batch_slice_eq_take (l : List (List PyVal)) (bs k : Nat) :
    (l.drop (k * bs)).take (min ((k + 1) * bs) l.length - k * bs)
      = (l.drop (k * bs)).take bs := by
  have hsm : (k + 1) * bs = k * bs + bs := by ring
  rcases le_total ((k + 1) * bs) l.length with h | h
  · rw [min_eq_left h]
    have heq : (k + 1) * bs - k * bs = bs := by omega
    rw [heq]
  · rw [min_eq_right h]
    have ha : (l.drop (k * bs)).length ≤ bs := by
      rw [List.length_drop]
      omega
    have hb : (l.drop (k * bs)).length ≤ l.length - k * bs := by
      rw [List.length_drop]
    rw [List.take_of_length_le hb, List.take_of_length_le ha]

/-- Concatenating `B` consecutive `batch_size`-sized slices yields the
first `B * batch_size` rows. -/
theorem join_range_take_drop (bs : Nat) :
    ∀ (B : Nat) (l : List (List PyVal)),
      ((List.range B).map fun k => (l.drop (k * bs)).take bs).flatten = l.take (B * bs) := by
  intro B
  induction B with
  | zero => intro l; simp
  | succ B ih =>
    intro l
    rw [List.range_succ, List.map_append, List.flatten_append, ih l]
    simp only [List.map_cons, List.map_nil, List.flatten_cons, List.flatten_nil, List.append_nil]
    rw [← List.take_add]
    congr 1
    have hsm : (B + 1) * bs = B * bs + bs := by ring
    omega

/-- `PostgresqlGenericCRUD.create`'s batching covers the value list
exactly: the concatenation of the batches is the original list. -/
theorem pg_batches_join (values : List (List PyVal)) (bs : Nat)
    (h0 : 0 < values.length) (hbs : 0 < bs) :
    (Sem.pg_batches values bs).flatten = values := by
  unfold Sem.pg_batches
  have hslice : ∀ k ∈ List.range ((values.length - 1) / bs + 1),
      (values.drop (k * bs)).take (min ((k + 1) * bs) values.length - k * bs)
        = (values.drop (k * bs)).take bs := fun k _ => pg_batch_slice_eq_take values bs k
  rw [List.map_congr_left hslice, join_range_take_drop]
  apply List.take_of_length_le
  have hd := Nat.div_add_mod (values.length - 1) bs
  have hm : (values.length - 1) % bs < bs := Nat.mod_lt _ hbs
  have hmul : ((values.length - 1) / bs + 1) * bs
      = bs * ((values.length - 1) / bs) + bs := by ring
  omega

/-- Appending rows to a freshly created table only touches that
table. -/
theorem append_rows_fresh (db : SemDB) (table : String) (tb : SemTable)
    (new : List (List PyVal)) (h : ∀ e ∈ db, e.1 ≠ table) :
    Sem.append_rows (db ++ [(table, tb)]) table new
      = db ++ [(table, ⟨tb.cols, tb.rows ++ new⟩)] := by
  unfold Sem.append_rows
  rw [List.map_append]
  congr 1
  · have hmap : List.map
        (fun e => if e.1 = table then (e.1, SemTable.mk e.2.cols (e.2.rows ++ new)) else e) db
        = List.map id db :=
      List.map_congr_left fun e he => by simp [h e he]
    simpa using hmap
  · simp

/-- Folding the batch inserts over a fresh table appends the
concatenation of the batches. -/
theorem foldl_append_rows :
    ∀ (batches : List (List (List PyVal))) (db : SemDB) (table : String)
      (cols : List String) (rows0 : List (List PyVal)),
      (∀ e ∈ db, e.1 ≠ table) →
      batches.foldl (fun d batch => Sem.append_rows d table batch)
          (db ++ [(table, ⟨cols, rows0⟩)])
        = db ++ [(table, ⟨cols, rows0 ++ batches.flatten⟩)] := by
  intro batches
  induction batches with
  | nil => intro db table cols rows0 h; simp
  | cons b bs ih =>
    intro db table cols rows0 h
    simp only [List.foldl_cons]
    rw [append_rows_fresh db table ⟨cols, rows0⟩ b h]
    rw [ih db table cols (rows0 ++ b) h]
    simp [List.append_assoc]

/-- Looking a fresh table up after appending it to the catalog. -/
theorem lookup_append_single :
    ∀ (db : SemDB) (table : String) (tb : SemTable),
      (∀ e ∈ db, e.1 ≠ table) →
      Sem.lookup (db ++ [(table, tb)]) table = some tb := by
  intro db table tb
  induction db with
  | nil =>
    intro _
    simp [Sem.lookup, List.find?]
  | cons e es ih =>
    intro h
    have hne : e.1 ≠ table := h e (List.mem_cons_self e es)
    have htail := ih fun x hx => h x (List.mem_cons_of_mem e hx)
    unfold Sem.lookup at htail ⊢
    rw [List.cons_append, List.find?_cons_of_neg _ (by simp [hne])]
    exact htail

/-- A table absent from the catalog differs in name from every entry. -/
theorem lookup_none_fresh (db : SemDB) (table : String)
    (h : Sem.lookup db table = none) : ∀ e ∈ db, e.1 ≠ table := by
  intro e he
  unfold Sem.lookup at h
  have hfind := Option.map_eq_none'.mp h
  have := List.find?_eq_none.mp hfind e he
  simpa using this

/-- Projecting a zipped record by its own column names is the identity
(with any value transformation applied pointwise), provided the column
names are distinct and the row has one value per column. -/
theorem map_record_get_zip (f : PyVal → PyVal) :
    ∀ (cols : List String) (row : List PyVal), cols.Nodup → row.length = cols.length →
      (cols.map fun c => (c, f (record_get (cols.zip row) c)))
        = (cols.zip row).map fun kv => (kv.1, f kv.2) := by
  intro cols
  induction cols with
  | nil => intro row _ _; simp
  | cons c cs ih =>
    intro row hnd hlen
    cases row with
    | nil => simp at hlen
    | cons v vs =>
      have hcn : c ∉ cs := (List.nodup_cons.mp hnd).1
      have hnd' : cs.Nodup := (List.nodup_cons.mp hnd).2
      have hlen' : vs.length = cs.length := by simpa using hlen
      simp only [List.zip_cons_cons, List.map_cons]
      have hhead : record_get ((c, v) :: cs.zip vs) c = v := by
        simp [record_get, List.find?]
      have htail : ∀ c' ∈ cs, record_get ((c, v) :: cs.zip vs) c'
          = record_get (cs.zip vs) c' := by
        intro c' hc'
        have hne : c ≠ c' := fun hEq => hcn (hEq ▸ hc')
        simp [record_get, List.find?, hne]
      rw [hhead]
      congr 1
      have hmapeq : cs.map (fun c' => (c', f (record_get ((c, v) :: cs.zip vs) c')))
          = cs.map fun c' => (c', f (record_get (cs.zip vs) c')) :=
        List.map_congr_left fun c' hc' => by rw [htail c' hc']
      rw [hmapeq]
      exact ih vs hnd' hlen'

end EtlManager


namespace EtlManager

/-- C1: the round trip fails on the MySQL backend and holds on the
PostgreSQL backend.  (a) `MySQLGenericCRUD` passes `fetch_as_dict=True`
to `MySQLClient.execute_query`, whose signature
`(self, query, params=None)` has no such parameter: every `create`
(and `read`) on that pairing raises `TypeError` at the first catalog
introspection, for any table, rows and columns, so create-then-read
never returns the inserted rows.  (b) For PostgreSQL, `create` on a
nonexistent table with distinct non-`id` columns and matching row
widths creates the table and inserts all rows (the chunked batches
cover the value list exactly, for any batch size and any row count
from 1 up), and `read(table)` then returns exactly the inserted rows
as records, modulo the fixed-format date/time normalization. -/
theorem c1_create_read_round_trip :
    (∀ (raw : String → List PyVal → Except PyError ExecResult)
        (rawBatch : String → List (List PyVal) → Except PyError Unit)
        (table : String) (values : List (List PyVal)) (columns? : Option (List String)),
        MySQLGenericCRUD.create (MySQLClient.as_crud_client raw rawBatch) table values columns?
          = ([MySQLGenericCRUD.columns_query false],
             .error (.typeError
               "execute_query() got an unexpected keyword argument \x27fetch_as_dict\x27")))
    ∧ (∀ (db : SemDB) (table : String) (columns : List String) (values : List (List PyVal))
        (pk : Option String) (bs : Nat),
        PostgresqlGenericCRUD.validate_table_name table = true →
        Sem.lookup db table = none →
        (∀ row ∈ values, row.length = columns.length) →
        columns.Nodup → "id" ∉ columns → 0 < values.length → 0 < bs →
        Sem.pg_create db table values (some columns) pk bs
            = .ok (db ++ [(table, ⟨columns, values⟩)], true)
          ∧ Sem.pg_read (db ++ [(table, ⟨columns, values⟩)]) table none false
            = .ok (values.map fun row =>
                (columns.zip row).map fun kv => (kv.1, format_date_val kv.2))) := by
  constructor
  · intro raw rawBatch table values columns?
    rfl
  · intro db table columns values pk bs hval hlk hlen hnd hid h0 hbs
    have hfresh : ∀ e ∈ db, e.1 ≠ table := lookup_none_fresh db table hlk
    have hlk2 := lookup_append_single db table ⟨columns, values⟩ hfresh
    have hfind_none : (values.find? fun row => row.length != columns.length) = none := by
      apply List.find?_eq_none.mpr
      intro row hrow
      simp [hlen row hrow]
    constructor
    · have hctine : Sem.pg_create_table_if_not_exists db table columns values pk
          = .ok (db ++ [(table, ⟨columns, []⟩)]) := by
        unfold Sem.pg_create_table_if_not_exists
        simp [hval, hlk, pg_infer_fst]
      have hfold : (Sem.pg_batches values bs).foldl
          (fun d batch => Sem.append_rows d table batch) (db ++ [(table, ⟨columns, []⟩)])
          = db ++ [(table, ⟨columns, values⟩)] := by
        rw [foldl_append_rows (Sem.pg_batches values bs) db table columns [] hfresh]
        rw [pg_batches_join values bs h0 hbs]
        simp
      unfold Sem.pg_create
      simp [hval, hfind_none, hctine, hfold]
    · have hfilter : columns.filter (fun c => c ≠ "id") = columns :=
        List.filter_eq_self.mpr fun c hc => by
          have hne : c ≠ "id" := fun hEq => hid (hEq ▸ hc)
          simp [hne]
      have hcols : Sem.pg_get_table_columns (db ++ [(table, ⟨columns, values⟩)]) table false
          = columns := by
        unfold Sem.pg_get_table_columns
        rw [hlk2]
        simpa using hfilter
      unfold Sem.pg_read
      simp only [hval, hcols, hlk2, Option.getD_none, Bool.not_true, not_true_eq_false,
        if_false]
      simp only [Except.ok.injEq]
      apply List.map_congr_left
      intro row hrow
      unfold format_dates
      rw [List.map_map]
      exact map_record_get_zip format_date_val columns row hnd (hlen row hrow)

/-- C1 witness: the failing MySQL pairing at a concrete call, and the
PostgreSQL round trip at a concrete two-column table with an integer
and a date value (the date coming back as its fixed-format string). -/
theorem c1_create_read_round_trip_witness :
    MySQLGenericCRUD.create
        (MySQLClient.as_crud_client (fun _ _ => .ok (.count 0)) (fun _ _ => .ok ()))
        "t" [[PyVal.vInt 1]] (some ["a"])
      = ([MySQLGenericCRUD.columns_query false],
         .error (.typeError
           "execute_query() got an unexpected keyword argument \x27fetch_as_dict\x27"))
    ∧ Sem.pg_create [] "t" [[PyVal.vInt 1, PyVal.vDate 2024 1 1]] (some ["a", "b"]) none 1000
        = .ok ([("t", ⟨["a", "b"], [[PyVal.vInt 1, PyVal.vDate 2024 1 1]]⟩)], true)
    ∧ Sem.pg_read [("t", ⟨["a", "b"], [[PyVal.vInt 1, PyVal.vDate 2024 1 1]]⟩)] "t" none false
        = .ok [[("a", PyVal.vInt 1), ("b", PyVal.vStr "2024-01-01")]] := by
  have hmain := c1_create_read_round_trip.2 [] "t" ["a", "b"]
    [[PyVal.vInt 1, PyVal.vDate 2024 1 1]] none 1000 (by decide) rfl
    (by decide) (by decide) (by decide) (by decide) (by decide)
  simp only [List.nil_append] at hmain
  refine ⟨c1_create_read_round_trip.1 _ _ "t" [[PyVal.vInt 1]] (some ["a"]), ?_, ?_⟩
  · rw [hmain.1]
  · rw [hmain.2]
    exact congrArg Except.ok (by decide)

end EtlManager

namespace EtlManager

/-- `MySQLGenericCRUD._get_table_columns` always issues exactly its
catalog introspection query. -/
theorem mysql_gtc_fst (client : CrudClient) (table : String) (show_id : Bool) :
    (MySQLGenericCRUD.get_table_columns client table show_id).1
      = [MySQLGenericCRUD.columns_query show_id] := by
  simp only [MySQLGenericCRUD.get_table_columns]
  split <;> rfl

/-- Every query issued by `MySQLGenericCRUD.create_table_if_not_exists`
is either the catalog introspection query or the generated
`CREATE TABLE`. -/
theorem mysql_ctine_trace (client : CrudClient) (table : String) (columns : List String)
    (values : List (List PyVal)) :
    ∀ q ∈ (MySQLGenericCRUD.create_table_if_not_exists client table columns values).1,
      q = MySQLGenericCRUD.columns_query false
        ∨ q = MySQLGenericCRUD.create_table_query table columns values := by
  intro q
  rcases hg : MySQLGenericCRUD.get_table_columns client table false with ⟨t, res⟩
  have ht : t = [MySQLGenericCRUD.columns_query false] := by
    rw [← mysql_gtc_fst client table false, hg]
  subst ht
  simp only [MySQLGenericCRUD.create_table_if_not_exists, hg]
  cases res with
  | error e =>
    intro hq
    simp only [List.mem_singleton] at hq
    exact Or.inl hq
  | ok existing =>
    by_cases hex : existing = []
    · subst hex
      simp only [ne_eq, not_true_eq_false, if_false]
      cases hc : client.exec (MySQLGenericCRUD.create_table_query table columns values)
          [] false with
      | ok r =>
        intro hq
        simp only [hc, List.mem_append, List.mem_singleton] at hq
        rcases hq with h | h
        · exact Or.inl h
        · exact Or.inr h
      | error e =>
        intro hq
        simp only [hc, List.mem_append, List.mem_singleton] at hq
        rcases hq with h | h
        · exact Or.inl h
        · exact Or.inr h
    · simp only [ne_eq, hex, not_false_eq_true, if_true]
      intro hq
      simp only [List.mem_singleton] at hq
      exact Or.inl hq

end EtlManager

namespace EtlManager

/-- C5 counterexample: on an existing two-column table, a MySQL
`create` with a one-element tuple does raise the validation
`ValueError`, but only after the catalog introspection query has been
executed against the database — the issued-query trace is nonempty at
the failure, so "no query of any kind" is false. -/
theorem c5_counterexample_mysql_introspects_before_check :
    MySQLGenericCRUD.create twoColCatalogClient "t" [[PyVal.vInt 1]] (some ["a", "b"])
      = ([MySQLGenericCRUD.columns_query false],
         .error (.valueError "Number of values 1 does not match number of columns 2"))
    ∧ [MySQLGenericCRUD.columns_query false] ≠ ([] : List String) := by
  refine ⟨rfl, by decide⟩

/-- C5 (amended): a tuple-length mismatch always fails `create` with a
validation `ValueError` and the `INSERT` itself is never issued, but
only the PostgreSQL engine (when columns are supplied) fails before
touching the backend: its trace is empty, whereas the MySQL engine
first issues its catalog introspection query (and, when the table is
absent, the generated `CREATE TABLE`) — never anything else, and never
a successful return. -/
theorem c5_tuple_length_validation :
    (∀ (client : CrudClient) (table : String) (values : List (List PyVal))
        (columns : List String) (pk : Option String) (bs : Nat) (row : List PyVal),
        PostgresqlGenericCRUD.validate_table_name table = true →
        row ∈ values → row.length ≠ columns.length →
        (PostgresqlGenericCRUD.create client table values (some columns) pk bs).1 = []
          ∧ ∃ m, (PostgresqlGenericCRUD.create client table values (some columns) pk bs).2
              = .error (.valueError m))
    ∧ (∀ (client : CrudClient) (table : String) (values : List (List PyVal))
        (columns : List String) (row : List PyVal),
        row ∈ values → row.length ≠ columns.length →
        (MySQLGenericCRUD.create client table values (some columns)).2 ≠ .ok true
          ∧ ∀ q ∈ (MySQLGenericCRUD.create client table values (some columns)).1,
              q = MySQLGenericCRUD.columns_query false
                ∨ q = MySQLGenericCRUD.create_table_query table columns values) := by
  constructor
  · intro client table values columns pk bs row hval hmem hlen
    have hsome : (values.find? fun r => r.length != columns.length).isSome :=
      List.find?_isSome.mpr ⟨row, hmem, by simpa using hlen⟩
    obtain ⟨r0, hr0⟩ := Option.isSome_iff_exists.mp hsome
    have hbody : PostgresqlGenericCRUD.create_body client table values (some columns) pk bs
        = ([], .error (.valueError ("Number of values " ++ toString r0.length
            ++ " does not match number of columns " ++ toString columns.length))) := by
      simp only [PostgresqlGenericCRUD.create_body, hval, hr0]
      simp
    have hret : PostgresqlGenericCRUD.create client table values (some columns) pk bs
        = ([], .error (.valueError ("Number of values " ++ toString r0.length
            ++ " does not match number of columns " ++ toString columns.length))) := by
      unfold PostgresqlGenericCRUD.create
      exact retryWrap_empty_error 5
        (fun _ => PostgresqlGenericCRUD.create_body client table values (some columns) pk bs)
        _ hbody
    rw [hret]
    exact ⟨rfl, _, rfl⟩
  · intro client table values columns row hmem hlen
    have hsome : (values.find? fun r => r.length != columns.length).isSome :=
      List.find?_isSome.mpr ⟨row, hmem, by simpa using hlen⟩
    obtain ⟨r0, hr0⟩ := Option.isSome_iff_exists.mp hsome
    rcases hg : MySQLGenericCRUD.get_table_columns client table false with ⟨t1, res1⟩
    have ht1 : t1 = [MySQLGenericCRUD.columns_query false] := by
      rw [← mysql_gtc_fst client table false, hg]
    subst ht1
    cases res1 with
    | error e =>
      refine ⟨?_, ?_⟩
      · simp [MySQLGenericCRUD.create, hg]
      · intro q hq
        simp [MySQLGenericCRUD.create, hg] at hq
        exact Or.inl hq
    | ok existing =>
      by_cases hex : existing = []
      · subst hex
        rcases hc : MySQLGenericCRUD.create_table_if_not_exists client table columns values
          with ⟨t2, res2⟩
        have ht2 : ∀ q ∈ t2,
            q = MySQLGenericCRUD.columns_query false
              ∨ q = MySQLGenericCRUD.create_table_query table columns values := by
          have hmem2 := mysql_ctine_trace client table columns values
          rw [hc] at hmem2
          simpa using hmem2
        cases res2 with
        | error e =>
          refine ⟨?_, ?_⟩
          · simp [MySQLGenericCRUD.create, hg, hc]
          · intro q hq
            simp [MySQLGenericCRUD.create, hg, hc] at hq
            rcases hq with h | h
            · exact Or.inl h
            · exact ht2 q h
        | ok u =>
          refine ⟨?_, ?_⟩
          · simp [MySQLGenericCRUD.create, hg, hc, hr0]
          · intro q hq
            simp [MySQLGenericCRUD.create, hg, hc, hr0] at hq
            rcases hq with h | h | h
            · exact Or.inl h
            · exact ht2 q h
            · exact Or.inl h
      · refine ⟨?_, ?_⟩
        · simp [MySQLGenericCRUD.create, hg, hex, hr0]
        · intro q hq
          simp [MySQLGenericCRUD.create, hg, hex, hr0] at hq
          exact Or.inl hq

/-- C5 witness: both parts at a concrete mismatched call — PostgreSQL
fails with an empty trace; MySQL fails without ever returning success
and with only catalog/DDL queries in its trace. -/
theorem c5_tuple_length_validation_witness :
    ((PostgresqlGenericCRUD.create okCountClient "t" [[PyVal.vInt 1]] (some ["a", "b"])
          none 1000).1 = []
      ∧ ∃ m, (PostgresqlGenericCRUD.create okCountClient "t" [[PyVal.vInt 1]]
          (some ["a", "b"]) none 1000).2 = .error (.valueError m))
    ∧ ((MySQLGenericCRUD.create okCountClient "t" [[PyVal.vInt 1]] (some ["a", "b"])).2
          ≠ .ok true
      ∧ ∀ q ∈ (MySQLGenericCRUD.create okCountClient "t" [[PyVal.vInt 1]]
          (some ["a", "b"])).1,
          q = MySQLGenericCRUD.columns_query false
            ∨ q = MySQLGenericCRUD.create_table_query "t" ["a", "b"] [[PyVal.vInt 1]]) :=
  ⟨c5_tuple_length_validation.1 okCountClient "t" [[PyVal.vInt 1]] ["a", "b"] none 1000
      [PyVal.vInt 1] (by decide) (by decide) (by decide),
   c5_tuple_length_validation.2 okCountClient "t" [[PyVal.vInt 1]] ["a", "b"]
      [PyVal.vInt 1] (by decide) (by decide)⟩

end EtlManager
